import Mathlib

/-!
# Verification of the SoC tutorial bot core

A shallow embedding of the perception-driven step executor of the
SoCv1.0.4 repository, together with proofs of the spec's testable
properties.

Conventions of the embedding:
* fractional durations from the Python source (seconds) are carried as
  rationals so that the step parameters are preserved exactly;
* wall-clock polling loops are modelled with an explicit elapsed-time
  counter in tenths of a second (the source sleeps 0.3 s per iteration);
* perception (template matching / OCR) is modelled as an explicit
  environment: a function from the index of the capture to its result;
* device effects (taps, swipes) are collected in an explicit trace.
-/

/-- A parameter value of a tutorial step (`params` dict entries in the
source are numbers or strings). -/
inductive PVal where
  | num (v : ℚ)
  | str (v : String)
deriving DecidableEq, Repr

/-- One step of the tutorial script, from `tutorial_steps.TutorialStep`.
The optional `condition` callable is `None` for every step of the
catalog, modelled as an optional boolean result. -/
structure TutorialStep where
  step_number : Nat
  description : String
  action_type : String
  params : List (String × PVal)
  condition : Option Bool := none
deriving Repr

/-- A device-level side effect issued through the ADB transport. -/
inductive DeviceAction where
  | tap (x y : Nat)
  | swipe (x0 y0 x1 y1 : Nat)
deriving DecidableEq, Repr

/-! ## Season (band) partition table, from `utils/config.py` `SEASONS`
(the copy in `config/settings.py` is identical).  Each entry is
`(season id, min_server, max_server)` in declaration order. -/

def SEASONS : List (String × Nat × Nat) :=
  [ ("S1", 619, 598)
  , ("S2", 597, 571)
  , ("S3", 564, 541)
  , ("S4", 570, 505)
  , ("S5", 504, 457)
  , ("X1", 456, 433)
  , ("X2", 432, 363)
  , ("X3", 360, 97)
  , ("X4", 93, 1) ]

/-- The membership test of `TutorialExecutor._determine_season_for_server`:
`season_data[min_server] >= server_id >= season_data[max_server]`. -/
def season_matches (server_id : Nat) (band : String × Nat × Nat) : Bool :=
  server_id ≤ band.2.1 && band.2.2 ≤ server_id

/-- `TutorialExecutor._determine_season_for_server`: scan `SEASONS` in
declaration order and return the first band whose range contains the
server id, else `none`. -/
def determine_season_for_server (server_id : Nat) : Option String :=
  (SEASONS.find? (season_matches server_id)).map (·.1)

/-- All bands whose declared range contains target `t`, in declaration
order (auxiliary to state the partition invariant). -/
def bands_matching (t : Nat) : List String :=
  (SEASONS.filter (season_matches t)).map (·.1)

/-! ## Catalog validation, from `tutorial_steps.TutorialSteps.validate_steps` -/

/-- `TutorialSteps.validate_steps`: fails (returns `false`) exactly when
the extracted step numbers contain a duplicate (the source compares
`len(step_numbers)` with `len(set(step_numbers))`); missing numbers in
`1..97` are only logged as a warning before returning `true`. -/
def validate_steps (steps : List TutorialStep) : Bool :=
  let step_numbers := steps.map (·.step_number)
  if step_numbers.length ≠ step_numbers.dedup.length then
    false
  else
    true

/-- The gap warning computed by `validate_steps`: expected numbers `1..97`
that are absent from the catalog, in ascending order (the source logs
`sorted(missing_steps)`). -/
def missing_steps (steps : List TutorialStep) : List Nat :=
  (((List.range 97).map (· + 1))).filter
    (fun n => !((steps.map (·.step_number)).contains n))

/-- `TutorialSteps.get_steps_from_range`: the steps whose number lies in
`[start_step, end_step]`, in catalog order. -/
def get_steps_from_range (steps : List TutorialStep)
    (start_step : Nat) (end_step : Nat := 97) : List TutorialStep :=
  steps.filter (fun s => start_step ≤ s.step_number && s.step_number ≤ end_step)

/-! ## Executor construction, from `tutorial_executor.TutorialExecutor.__init__`

The source constructs the catalog, runs `validate_steps` and, when it
fails, only logs `"Обнаружены проблемы в конфигурации шагов"` as a
warning; construction always completes.  `Except` is used so that an
aborting constructor would be expressible (`Except.error`). -/

structure TutorialExecutor where
  tutorial_steps : List TutorialStep
  validation_warned : Bool
deriving Repr

def tutorial_executor_init (steps : List TutorialStep) :
    Except String TutorialExecutor :=
  Except.ok { tutorial_steps := steps, validation_warned := !validate_steps steps }

/-! ## The step catalog, from `TutorialSteps._define_all_steps` -/

/-- Steps 1-30 of the catalog (split only to keep definitions small). -/
def define_steps_1_30 : List TutorialStep :=
  [ { step_number := 1
    , description := "Клик по координатам (52, 50) - открываем профиль"
    , action_type := "click_coord"
    , params := [("x", .num 52), ("y", .num 50)] }
  , { step_number := 2
    , description := "Ждем 1.5 сек и открываем настройки"
    , action_type := "click_coord_with_delay"
    , params := [("x", .num 1076), ("y", .num 31), ("delay", .num 1.5)] }
  , { step_number := 3
    , description := "Ждем 1.5 сек и открываем вкладку персонажей"
    , action_type := "click_coord_with_delay"
    , params := [("x", .num 643), ("y", .num 319), ("delay", .num 1.5)] }
  , { step_number := 4
    , description := "Ждем 1.5 сек и создаем персонажа на новом сервере"
    , action_type := "click_coord_with_delay"
    , params := [("x", .num 271), ("y", .num 181), ("delay", .num 1.5)] }
  , { step_number := 5
    , description := "Выбор сервера"
    , action_type := "select_server"
    , params := [] }
  , { step_number := 6
    , description := "Ждем 2.5 сек и подтверждаем создание персонажа + ждем загрузки 17 сек"
    , action_type := "click_coord_with_delay_and_wait"
    , params := [("x", .num 787), ("y", .num 499), ("delay", .num 2.5), ("wait_after", .num 17)] }
  , { step_number := 7
    , description := "Ждем изображения step_7_skip_hell_henry.png, когда находим кликаем 1169:42 (скип)"
    , action_type := "click_with_image_check_and_wait"
    , params := [("image_key", .str "step_7_skip_hell_henry"), ("x", .num 1169), ("y", .num 42), ("image_timeout", .num 40), ("wait_after", .num 0.25)] }
  , { step_number := 8
    , description := "Ждем изображения step_8_skip_ship_word.png, когда находим кликаем 1169:42 (скип)"
    , action_type := "click_with_image_check_and_wait"
    , params := [("image_key", .str "step_8_skip_ship_word"), ("x", .num 1169), ("y", .num 42), ("image_timeout", .num 40), ("wait_after", .num 0.25)] }
  , { step_number := 9
    , description := "Ждем изображения step_9_skip_shark_word.png, когда находим кликаем 1169:42 (скип)"
    , action_type := "click_with_image_check_and_wait"
    , params := [("image_key", .str "step_9_skip_shark_word"), ("x", .num 1169), ("y", .num 42), ("image_timeout", .num 40), ("wait_after", .num 1.0)] }
  , { step_number := 10
    , description := "Ждем изображения step_10_face.png, когда находим кликаем 710:448 (активируем пушку)"
    , action_type := "click_with_image_check_and_wait"
    , params := [("image_key", .str "step_10_face"), ("x", .num 710), ("y", .num 448), ("image_timeout", .num 40), ("wait_after", .num 1)] }
  , { step_number := 11
    , description := "Ждем изображения step_11_skip.png, когда находим кликаем 1169:42 (скип)"
    , action_type := "click_with_image_check_and_wait"
    , params := [("image_key", .str "step_11_skip"), ("x", .num 1169), ("y", .num 42), ("image_timeout", .num 40), ("wait_after", .num 2)] }
  , { step_number := 12
    , description := "Ждем изображения step_12_skip.png, когда находим кликаем 1169:42 (скип)"
    , action_type := "click_with_image_check_and_wait"
    , params := [("image_key", .str "step_12_skip"), ("x", .num 1169), ("y", .num 42), ("image_timeout", .num 40), ("wait_after", .num 1)] }
  , { step_number := 13
    , description := "Ждем изображения step_13.png, когда находим кликаем 58:654 (Нажимаем на иконку кораблика)"
    , action_type := "click_with_image_check_and_wait"
    , params := [("image_key", .str "step_13"), ("x", .num 58), ("y", .num 654), ("image_timeout", .num 40), ("wait_after", .num 0.25)] }
  , { step_number := 14
    , description := "Ждем изображения step_14_skip.png, когда находим кликаем 1169:42 (скип)"
    , action_type := "click_with_image_check_and_wait"
    , params := [("image_key", .str "step_14_skip"), ("x", .num 1169), ("y", .num 42), ("image_timeout", .num 40), ("wait_after", .num 1)] }
  , { step_number := 15
    , description := "Ждем изображения step_15, клик 638:403, задержка 0,5 сек после клика (отстраиваем нижнюю палубу)"
    , action_type := "click_with_image_check_and_wait"
    , params := [("image_key", .str "step_15"), ("x", .num 638), ("y", .num 403), ("image_timeout", .num 40), ("wait_after", .num 1.5)] }
  , { step_number := 16
    , description := "Ждем изображения step_16, когда находим кликаем 635:373, тайм слип 0,5 сек (Отстраиваем паб в нижней палубе)"
    , action_type := "click_with_image_check_and_wait"
    , params := [("image_key", .str "step_16"), ("x", .num 635), ("y", .num 373), ("image_timeout", .num 40), ("wait_after", .num 1.5)] }
  , { step_number := 17
    , description := "Ждем изображения step_17, когда находим кликаем 635:373 (Латаем дыры в складе)"
    , action_type := "click_with_image_check_and_wait"
    , params := [("image_key", .str "step_17"), ("x", .num 635), ("y", .num 373), ("image_timeout", .num 40), ("wait_after", .num 1.5)] }
  , { step_number := 18
    , description := "Ждем изображения step_18, когда находим кликаем 1169:42 (скип)"
    , action_type := "click_with_image_check_and_wait"
    , params := [("image_key", .str "step_18"), ("x", .num 1169), ("y", .num 42), ("image_timeout", .num 40), ("wait_after", .num 0.25)] }
  , { step_number := 19
    , description := "Ждем изображения step_19, когда находим кликаем 345:386 (Отстраиваем верхнюю палубу)"
    , action_type := "click_with_image_check_and_wait"
    , params := [("image_key", .str "step_19"), ("x", .num 345), ("y", .num 386), ("image_timeout", .num 40), ("wait_after", .num 0.25)] }
  , { step_number := 20
    , description := "Ждем изображения step_20, когда находим кликаем 77:276 (Выбираем пушку)"
    , action_type := "click_with_image_check_and_wait"
    , params := [("image_key", .str "step_20"), ("x", .num 77), ("y", .num 276), ("image_timeout", .num 40), ("wait_after", .num 0.25)] }
  , { step_number := 21
    , description := "Ждем изображения step_21, когда находим кликаем 1169:42 (скип)"
    , action_type := "click_with_image_check_and_wait"
    , params := [("image_key", .str "step_21"), ("x", .num 1169), ("y", .num 42), ("image_timeout", .num 40), ("wait_after", .num 0.25)] }
  , { step_number := 22
    , description := "Ждем изображения step_22, когда находим кликаем 741:145 (квест - собираем предметы)"
    , action_type := "click_with_image_check_and_wait"
    , params := [("image_key", .str "step_22"), ("x", .num 741), ("y", .num 145), ("image_timeout", .num 40), ("wait_after", .num 0.25)] }
  , { step_number := 23
    , description := "Ждем изображения step_21, когда находим кликаем 1169:42 (скип)"
    , action_type := "click_with_image_check_and_wait"
    , params := [("image_key", .str "step_21"), ("x", .num 1169), ("y", .num 42), ("image_timeout", .num 40), ("wait_after", .num 0.25)] }
  , { step_number := 24
    , description := "Ждем изображения step_24, когда находим кликаем 93:285 (Начинаем квест «Старый соперник»)"
    , action_type := "click_with_image_check_and_wait"
    , params := [("image_key", .str "step_24"), ("x", .num 93), ("y", .num 285), ("image_timeout", .num 40), ("wait_after", .num 0.25)] }
  , { step_number := 25
    , description := "Ждем изображения step_18, когда находим кликаем 1169:42 (скип)"
    , action_type := "click_with_image_check_and_wait"
    , params := [("image_key", .str "step_18"), ("x", .num 1169), ("y", .num 42), ("image_timeout", .num 40), ("wait_after", .num 0.25)] }
  , { step_number := 26
    , description := "Ждем изображения step_26, когда находим кликаем 93:285 (Повторно активируем квест «Старый соперник»)"
    , action_type := "click_with_image_check_and_wait"
    , params := [("image_key", .str "step_26"), ("x", .num 93), ("y", .num 285), ("image_timeout", .num 40), ("wait_after", .num 0.25)] }
  , { step_number := 27
    , description := "Ждем изображения step_27, когда находим кликаем 1169:42 (скип)"
    , action_type := "click_with_image_check_and_wait"
    , params := [("image_key", .str "step_27"), ("x", .num 1169), ("y", .num 42), ("image_timeout", .num 40), ("wait_after", .num 1)] }
  , { step_number := 28
    , description := "Ждем изображения step_27, когда находим кликаем 1169:42 (скип)"
    , action_type := "click_with_image_check_and_wait"
    , params := [("image_key", .str "step_27"), ("x", .num 1169), ("y", .num 42), ("image_timeout", .num 40), ("wait_after", .num 0.25)] }
  , { step_number := 29
    , description := "Ждем изображения step_29, когда находим кликаем 630:413 (Продолжаем после победы - клик по центру экрана)"
    , action_type := "click_with_image_check_and_wait"
    , params := [("image_key", .str "step_29"), ("x", .num 630), ("y", .num 413), ("image_timeout", .num 40), ("wait_after", .num 0.25)] }
  , { step_number := 30
    , description := "Ждем изображения step_21, когда находим кликаем 1169:42 (скип)"
    , action_type := "click_with_image_check_and_wait"
    , params := [("image_key", .str "step_21"), ("x", .num 1169), ("y", .num 42), ("image_timeout", .num 40), ("wait_after", .num 0.25)] } ]

/-- Steps 31-60 of the catalog. -/
def define_steps_31_60 : List TutorialStep :=
  [ { step_number := 31
    , description := "Ждем изображения step_31, когда находим кликаем 1074:88 (Активируем компас)"
    , action_type := "click_with_image_check_and_wait"
    , params := [("image_key", .str "step_31"), ("x", .num 1074), ("y", .num 88), ("image_timeout", .num 40), ("wait_after", .num 0.25)] }
  , { step_number := 32
    , description := "Ждем изображения step_32, когда находим кликаем 701:258 (Повторно активируем компас)"
    , action_type := "click_with_image_check_and_wait"
    , params := [("image_key", .str "step_32"), ("x", .num 701), ("y", .num 258), ("image_timeout", .num 40), ("wait_after", .num 0.25)] }
  , { step_number := 33
    , description := "Ждем изображения step_27, когда находим кликаем 1169:42 (скип)"
    , action_type := "click_with_image_check_and_wait"
    , params := [("image_key", .str "step_27"), ("x", .num 1169), ("y", .num 42), ("image_timeout", .num 40), ("wait_after", .num 0.25)] }
  , { step_number := 34
    , description := "Ждем изображения step_34, когда находим кликаем 145:25 (Выходим из вкладки компаса)"
    , action_type := "click_with_image_check_and_wait"
    , params := [("image_key", .str "step_34"), ("x", .num 145), ("y", .num 25), ("image_timeout", .num 40), ("wait_after", .num 0.25)] }
  , { step_number := 35
    , description := "Ждем изображения step_27, когда находим кликаем 1169:42, тайм слип 1.5 сек (скип)"
    , action_type := "click_with_image_check_and_wait"
    , params := [("image_key", .str "step_27"), ("x", .num 1169), ("y", .num 42), ("image_timeout", .num 40), ("wait_after", .num 1.5)] }
  , { step_number := 36
    , description := "клик 93:285 (Активируем квест «Далекая песня»)"
    , action_type := "click_coord_with_delay_and_wait"
    , params := [("x", .num 93), ("y", .num 285), ("delay", .num 0), ("wait_after", .num 0.25)] }
  , { step_number := 37
    , description := "Ждем изображения step_18, когда находим кликаем 1169:42, тайм слип 1.5 сек (скип)"
    , action_type := "click_with_image_check_and_wait"
    , params := [("image_key", .str "step_18"), ("x", .num 1169), ("y", .num 42), ("image_timeout", .num 40), ("wait_after", .num 1.5)] }
  , { step_number := 38
    , description := "клик 93:285 (Повторно активируем квест «Далекая песня»)"
    , action_type := "click_coord_with_delay_and_wait"
    , params := [("x", .num 93), ("y", .num 285), ("delay", .num 0), ("wait_after", .num 0.25)] }
  , { step_number := 39
    , description := "Ждем изображения step_39, когда находим кликаем 1169:42 (скип)"
    , action_type := "click_with_image_check_and_wait"
    , params := [("image_key", .str "step_39"), ("x", .num 1169), ("y", .num 42), ("image_timeout", .num 40), ("wait_after", .num 0.25)] }
  , { step_number := 40
    , description := "Ждем изображения step_40, когда находим кликаем 151:349 (Соглашаемся на обмен)"
    , action_type := "click_with_image_check_and_wait"
    , params := [("image_key", .str "step_40"), ("x", .num 151), ("y", .num 349), ("image_timeout", .num 40), ("wait_after", .num 0.25)] }
  , { step_number := 41
    , description := "Ждем изображения step_21, когда находим кликаем 1169:42 (скип)"
    , action_type := "click_with_image_check_and_wait"
    , params := [("image_key", .str "step_21"), ("x", .num 1169), ("y", .num 42), ("image_timeout", .num 40), ("wait_after", .num 0.25)] }
  , { step_number := 42
    , description := "Ждем изображения step_24, когда находим кликаем 93:285 (Начинаем исследование залива Мертвецов)"
    , action_type := "click_with_image_check_and_wait"
    , params := [("image_key", .str "step_24"), ("x", .num 93), ("y", .num 285), ("image_timeout", .num 40), ("wait_after", .num 0.25)] }
  , { step_number := 43
    , description := "Ждем изображения step_21, когда находим кликаем 1169:42 (скип)"
    , action_type := "click_with_image_check_and_wait"
    , params := [("image_key", .str "step_21"), ("x", .num 1169), ("y", .num 42), ("image_timeout", .num 40), ("wait_after", .num 0.25)] }
  , { step_number := 44
    , description := "Ждем изображения step_44, когда находим кликаем 85:634, тайм слип 1.5 сек (Подготавливаемся к битве)"
    , action_type := "click_with_image_check_and_wait"
    , params := [("image_key", .str "step_44"), ("x", .num 85), ("y", .num 634), ("image_timeout", .num 40), ("wait_after", .num 1.5)] }
  , { step_number := 45
    , description := "клик 1157:604 (начинаем битву)"
    , action_type := "click_coord_with_delay_and_wait"
    , params := [("x", .num 1157), ("y", .num 604), ("delay", .num 0), ("wait_after", .num 2)] }
  , { step_number := 46
    , description := "Дожидаемся готовности к битве - ищем step_46"
    , action_type := "wait_for_battle_ready"
    , params := [("image_key", .str "step_46"), ("max_attempts", .num 20)] }
  , { step_number := 47
    , description := "Продолжаем кликать по центру экрана, пока не увидим step_48, когда находим кликаем 136:283"
    , action_type := "wait_for_ship"
    , params := [("image_key", .str "step_48"), ("click_x", .num 136), ("click_y", .num 283), ("max_attempts", .num 30)] }
  , { step_number := 48
    , description := "Ждем изображения step_27, когда находим кликаем 1169:42 (скип)"
    , action_type := "click_with_image_check_and_wait"
    , params := [("image_key", .str "step_27"), ("x", .num 1169), ("y", .num 42), ("image_timeout", .num 40), ("wait_after", .num 0.25)] }
  , { step_number := 49
    , description := "Ждем изображения step_50, когда находим кликаем 136:283 (Активируем следующий этап квеста)"
    , action_type := "click_with_image_check_and_wait"
    , params := [("image_key", .str "step_50"), ("x", .num 136), ("y", .num 283), ("image_timeout", .num 40), ("wait_after", .num 0.25)] }
  , { step_number := 50
    , description := "Ждем изображения step_27, когда находим кликаем 1169:42, тайм слип 3 сек (скип)"
    , action_type := "click_with_image_check_and_wait"
    , params := [("image_key", .str "step_27"), ("x", .num 1169), ("y", .num 42), ("image_timeout", .num 40), ("wait_after", .num 3.5)] }
  , { step_number := 51
    , description := "клик 653:403 (Активируем череп в заливе мертвецов)"
    , action_type := "click_coord_with_delay_and_wait"
    , params := [("x", .num 653), ("y", .num 403), ("delay", .num 0), ("wait_after", .num 1.0)] }
  , { step_number := 52
    , description := "Ждем изображения step_18, когда находим кликаем 1169:42,тайм слип 2 сек (скип)"
    , action_type := "click_with_image_check_and_wait"
    , params := [("image_key", .str "step_18"), ("x", .num 1169), ("y", .num 42), ("image_timeout", .num 40), ("wait_after", .num 2.0)] }
  , { step_number := 53
    , description := "Ждем изображения step_18, когда находим кликаем 1169:42 (скип)"
    , action_type := "click_with_image_check_and_wait"
    , params := [("image_key", .str "step_18"), ("x", .num 1169), ("y", .num 42), ("image_timeout", .num 40), ("wait_after", .num 2.0)] }
  , { step_number := 54
    , description := "Ждем изображения step_55, когда находим кликаем 1169:42, тайм слип 2 сек (скип)"
    , action_type := "click_with_image_check_and_wait"
    , params := [("image_key", .str "step_55"), ("x", .num 1169), ("y", .num 42), ("image_timeout", .num 40), ("wait_after", .num 2.5)] }
  , { step_number := 55
    , description := "Ждем изображения step_55, когда находим кликаем 1169:42 (скип)"
    , action_type := "click_with_image_check_and_wait"
    , params := [("image_key", .str "step_55"), ("x", .num 1169), ("y", .num 42), ("image_timeout", .num 40), ("wait_after", .num 2.0)] }
  , { step_number := 56
    , description := "Ждем изображения step_21, когда находим кликаем 1169:42 (скип)"
    , action_type := "click_with_image_check_and_wait"
    , params := [("image_key", .str "step_21"), ("x", .num 1169), ("y", .num 42), ("image_timeout", .num 40), ("wait_after", .num 0.25)] }
  , { step_number := 57
    , description := "Ждем изображения step_48, когда находим кликаем 136:283 (Продолжаем квест - «покинуть залив мертвецов»)"
    , action_type := "click_with_image_check_and_wait"
    , params := [("image_key", .str "step_48"), ("x", .num 136), ("y", .num 283), ("image_timeout", .num 40), ("wait_after", .num 0.25)] }
  , { step_number := 58
    , description := "Ждем изображения step_27, когда находим кликаем 1169:42 (скип)"
    , action_type := "click_with_image_check_and_wait"
    , params := [("image_key", .str "step_27"), ("x", .num 1169), ("y", .num 42), ("image_timeout", .num 40), ("wait_after", .num 0.25)] }
  , { step_number := 59
    , description := "Ждем изображения step_60, когда находим кликаем 125:283 (Открываем вкладку корабля)"
    , action_type := "click_with_image_check_and_wait"
    , params := [("image_key", .str "step_60"), ("x", .num 125), ("y", .num 283), ("image_timeout", .num 40), ("wait_after", .num 1)] }
  , { step_number := 60
    , description := "Ждем изображения step_61, когда находим кликаем 42:479 (заходим во вкладку построек)"
    , action_type := "click_with_image_check_and_wait"
    , params := [("image_key", .str "step_61"), ("x", .num 42), ("y", .num 479), ("image_timeout", .num 40), ("wait_after", .num 1)] } ]

/-- Steps 61-90 of the catalog. -/
def define_steps_61_90 : List TutorialStep :=
  [ { step_number := 61
    , description := "Ждем изображения step_62, когда находим кликаем 127:216 (Выбираем корабль для улучшения)"
    , action_type := "click_with_image_check_and_wait"
    , params := [("image_key", .str "step_62"), ("x", .num 127), ("y", .num 216), ("image_timeout", .num 40), ("wait_after", .num 1)] }
  , { step_number := 62
    , description := "Ждем изображения step_63, когда находим кликаем 1079:646, тайм слип 2.5 сек (Улучшаем корабль)"
    , action_type := "click_with_image_check_and_wait"
    , params := [("image_key", .str "step_63"), ("x", .num 1079), ("y", .num 646), ("image_timeout", .num 40), ("wait_after", .num 3.5)] }
  , { step_number := 63
    , description := "клик 145:25 (Выходим из вкладки корабля)"
    , action_type := "click_coord_with_delay_and_wait"
    , params := [("x", .num 145), ("y", .num 25), ("delay", .num 0), ("wait_after", .num 2)] }
  , { step_number := 64
    , description := "Ждем изображения step_61, когда находим кликаем 639:603 (Открываем меню постройки)"
    , action_type := "click_with_image_check_and_wait"
    , params := [("image_key", .str "step_61"), ("x", .num 639), ("y", .num 603), ("image_timeout", .num 40), ("wait_after", .num 1)] }
  , { step_number := 65
    , description := "Ждем изображения step_21, когда находим кликаем 1169:42 (скип)"
    , action_type := "click_with_image_check_and_wait"
    , params := [("image_key", .str "step_21"), ("x", .num 1169), ("y", .num 42), ("image_timeout", .num 40), ("wait_after", .num 1)] }
  , { step_number := 66
    , description := "Ждем изображения step_61, когда находим кликаем 1072:87, тайм слип 3 (Открываем вкладку компаса)"
    , action_type := "click_with_image_check_and_wait"
    , params := [("image_key", .str "step_61"), ("x", .num 1072), ("y", .num 87), ("image_timeout", .num 40), ("wait_after", .num 9)] }
  , { step_number := 67
    , description := "Ждем изображения step_68, когда находим кликаем 43:481 (открываем вкладку строительства)"
    , action_type := "click_with_image_check_and_wait"
    , params := [("image_key", .str "step_68"), ("x", .num 43), ("y", .num 481), ("image_timeout", .num 40), ("wait_after", .num 2)] }
  , { step_number := 68
    , description := "Ждем изображения step_69, когда находим кликаем 983:405 (выбираем постройку - каюта гребцов)"
    , action_type := "click_with_image_check_and_wait"
    , params := [("image_key", .str "step_69"), ("x", .num 983), ("y", .num 405), ("image_timeout", .num 40), ("wait_after", .num 2.5)] }
  , { step_number := 69
    , description := "Ждем изображения step_68, когда находим кликаем 676:580, тайм слип 4.5 сек (Подтверждаем постройку каюты гребцов)"
    , action_type := "click_with_image_check_and_wait"
    , params := [("image_key", .str "step_68"), ("x", .num 676), ("y", .num 580), ("image_timeout", .num 40), ("wait_after", .num 4.5)] }
  , { step_number := 70
    , description := "клик 123:280, тайм слип 3 сек (Активируем квест «Заполучи кают гребцов: 1»)"
    , action_type := "click_coord_with_delay_and_wait"
    , params := [("x", .num 123), ("y", .num 280), ("delay", .num 0), ("wait_after", .num 3.0)] }
  , { step_number := 71
    , description := "клик 42:479 (открываем вкладку построек)"
    , action_type := "click_coord_with_delay_and_wait"
    , params := [("x", .num 42), ("y", .num 479), ("delay", .num 0), ("wait_after", .num 3)] }
  , { step_number := 72
    , description := "Ждем изображения step_69, когда находим кликаем 687:514 (Выбираем орудийную палубу)"
    , action_type := "click_with_image_check_and_wait"
    , params := [("image_key", .str "step_69"), ("x", .num 687), ("y", .num 514), ("image_timeout", .num 40), ("wait_after", .num 3)] }
  , { step_number := 73
    , description := "Ждем изображения step_68, когда находим кликаем 679:581, тайм слип 4.5 сек (Подтверждаем постройку орудийной палубы)"
    , action_type := "click_with_image_check_and_wait"
    , params := [("image_key", .str "step_68"), ("x", .num 679), ("y", .num 581), ("image_timeout", .num 40), ("wait_after", .num 5.5)] }
  , { step_number := 74
    , description := "клик 119:279, тайм слип 2 сек (Завершаем квест орудийных палуб)"
    , action_type := "click_coord_with_delay_and_wait"
    , params := [("x", .num 119), ("y", .num 279), ("delay", .num 0), ("wait_after", .num 3.5)] }
  , { step_number := 75
    , description := "клик 119:279, тайм слип 2 сек (Нажимаем на квест с компасом)"
    , action_type := "click_coord_with_delay_and_wait"
    , params := [("x", .num 119), ("y", .num 279), ("delay", .num 0), ("wait_after", .num 1.5)] }
  , { step_number := 76
    , description := "клик 1072:87 (Открываем компас)"
    , action_type := "click_coord_with_delay_and_wait"
    , params := [("x", .num 1072), ("y", .num 87), ("delay", .num 0), ("wait_after", .num 2)] }
  , { step_number := 77
    , description := "Ждем изображения step_77, когда находим кликаем 698:273 (Активируем указатель)"
    , action_type := "click_with_image_check_and_wait"
    , params := [("image_key", .str "step_77"), ("x", .num 698), ("y", .num 273), ("image_timeout", .num 40), ("wait_after", .num 2)] }
  , { step_number := 78
    , description := "Ждем изображения step_27, когда находим кликаем 1169:42 (скип)"
    , action_type := "click_with_image_check_and_wait"
    , params := [("image_key", .str "step_27"), ("x", .num 1169), ("y", .num 42), ("image_timeout", .num 40), ("wait_after", .num 1)] }
  , { step_number := 79
    , description := "Ждем изображения step_79, когда находим кликаем 652:214 (Активируем компас над кораблем)"
    , action_type := "click_with_image_check_and_wait"
    , params := [("image_key", .str "step_79"), ("x", .num 652), ("y", .num 214), ("image_timeout", .num 40), ("wait_after", .num 0.25)] }
  , { step_number := 80
    , description := "Ждем изображения step_27, когда находим кликаем 1169:42 (скип)"
    , action_type := "click_with_image_check_and_wait"
    , params := [("image_key", .str "step_27"), ("x", .num 1169), ("y", .num 42), ("image_timeout", .num 40), ("wait_after", .num 4.5)] }
  , { step_number := 81
    , description := "Ждем изображения step_21, когда находим кликаем 1169:42, тайм слип 1 сек (скип)"
    , action_type := "click_with_image_check_and_wait"
    , params := [("image_key", .str "step_21"), ("x", .num 1169), ("y", .num 42), ("image_timeout", .num 40), ("wait_after", .num 1.5)] }
  , { step_number := 82
    , description := "Ждем изображения step_21, когда находим кликаем 1169:42, тайм слип 1 сек (скип)"
    , action_type := "click_with_image_check_and_wait"
    , params := [("image_key", .str "step_21"), ("x", .num 1169), ("y", .num 42), ("image_timeout", .num 40), ("click_delay", .num 1.5), ("wait_after", .num 1.5)] }
  , { step_number := 83
    , description := "Ждем изображения step_82, когда находим кликаем 151:280 (Активируем квест «Богатая добыча»)"
    , action_type := "click_with_image_check_and_wait"
    , params := [("image_key", .str "step_82"), ("x", .num 151), ("y", .num 280), ("image_timeout", .num 40), ("wait_after", .num 0.25)] }
  , { step_number := 84
    , description := "Ждем изображения step_27, когда находим кликаем 1169:42 (скип)"
    , action_type := "click_with_image_check_and_wait"
    , params := [("image_key", .str "step_27"), ("x", .num 1169), ("y", .num 42), ("image_timeout", .num 40), ("wait_after", .num 0.5)] }
  , { step_number := 85
    , description := "Ждем изображения step_84, когда находим кликаем 1169:42 (скип)"
    , action_type := "click_with_image_check_and_wait"
    , params := [("image_key", .str "step_84"), ("x", .num 1169), ("y", .num 42), ("image_timeout", .num 40), ("wait_after", .num 0.25)] }
  , { step_number := 86
    , description := "Ждем изображения step_85, когда находим кликаем 1169:42, тайм слип 1 сек (скип)"
    , action_type := "click_with_image_check_and_wait"
    , params := [("image_key", .str "step_85"), ("x", .num 1169), ("y", .num 42), ("image_timeout", .num 40), ("wait_after", .num 2.0)] }
  , { step_number := 87
    , description := "Ждем изображения step_85, когда находим кликаем 1169:42 (скип)"
    , action_type := "click_with_image_check_and_wait"
    , params := [("image_key", .str "step_85"), ("x", .num 1169), ("y", .num 42), ("image_timeout", .num 40), ("wait_after", .num 2.0)] }
  , { step_number := 88
    , description := "Ждем изображения step_87, когда находим кликаем 931:620 (Собираем монеты)"
    , action_type := "click_with_image_check_and_wait"
    , params := [("image_key", .str "step_87"), ("x", .num 931), ("y", .num 620), ("image_timeout", .num 40), ("wait_after", .num 2.0)] }
  , { step_number := 89
    , description := "Ждем изображения step_88, когда находим кликаем 1169:42 (скип)"
    , action_type := "click_with_image_check_and_wait"
    , params := [("image_key", .str "step_88"), ("x", .num 1169), ("y", .num 42), ("image_timeout", .num 40), ("wait_after", .num 1.0)] }
  , { step_number := 90
    , description := "Ждем изображения step_89, когда находим кликаем 150:277 (скип)"
    , action_type := "click_with_image_check_and_wait"
    , params := [("image_key", .str "step_89"), ("x", .num 150), ("y", .num 277), ("image_timeout", .num 40), ("wait_after", .num 0.25)] } ]

/-- `TutorialSteps._define_all_steps`: the full catalog, steps 1-90 in
declaration order. -/
def define_all_steps : List TutorialStep :=
  define_steps_1_30 ++ define_steps_31_60 ++ define_steps_61_90

/-! ## The tap-after-visual-check action

From `InterfaceController.click_with_image_check` and
`TutorialExecutor._action_click_with_image_check_and_wait`.  The
perception environment `wait_for_image` reports whether the template
appeared within the given timeout. -/

/-- The trace of one action: the device taps it issued and its returned
success flag. -/
structure ActionTrace where
  taps : List DeviceAction
  result : Bool
deriving DecidableEq, Repr

/-- `InterfaceController.click_with_image_check`: wait for the image
(bounded by `image_timeout`), tap `(x, y)` in both branches, and return
whether the image was found (the docstring: True если изображение
найдено). -/
def click_with_image_check (wait_for_image : String → Nat → Bool)
    (image_key : String) (x y : Nat) (image_timeout : Nat) : ActionTrace :=
  if wait_for_image image_key image_timeout then
    { taps := [DeviceAction.tap x y], result := true }
  else
    { taps := [DeviceAction.tap x y], result := false }

/-- `TutorialExecutor._action_click_with_image_check_and_wait`: run
`click_with_image_check`, sleep `wait_after`, and return its success
flag unchanged. -/
def action_click_with_image_check_and_wait (wait_for_image : String → Nat → Bool)
    (image_key : String) (x y : Nat) (image_timeout : Nat := 15)
    (wait_after : ℚ := 0) : ActionTrace :=
  let t := click_with_image_check wait_for_image image_key x y image_timeout
  let _ := wait_after   -- time.sleep(wait_after); no device effect
  t

/-! ## Bounded skip-button search, from
`SkipButtonFinder.find_skip_button_with_timeout`

The wall clock is modelled in tenths of a second: the guard
`time.time() - start_time < timeout` is checked with `elapsed = 3 * k`
after `k` sleeps of 0.3 s each.  The environments `quick` and
`advanced` give the outcome of `_find_skip_quick_search` and
`_find_skip_with_advanced_ocr` at each attempt number. -/

/-- The result of the bounded search: the returned flag, the number of
polling attempts performed, and the number of 0.3 s sleeps taken. -/
structure SkipSearchTrace where
  found : Bool
  attempts : Nat
  sleeps : Nat
deriving DecidableEq, Repr

/-- The polling loop of `find_skip_button_with_timeout`: while the
elapsed time is below the timeout, try the quick search, every fifth
attempt also the advanced search, then sleep 0.3 s.  The structural
`fuel` only bounds the recursion; it is initialised to `timeout_tenths`,
which dominates the iteration count because each iteration adds 3 to
`elapsed`, and the fuel-exhausted base case coincides with the loop's
normal exit. -/
def skip_search_go (quick advanced : Nat → Bool) (timeout_tenths : Nat) :
    Nat → Nat → Nat → Nat → SkipSearchTrace
  | 0, _, attempt, sleeps =>
    { found := false, attempts := attempt, sleeps := sleeps }
  | fuel + 1, elapsed, attempt, sleeps =>
    if elapsed < timeout_tenths then
      let attempt1 := attempt + 1
      if quick attempt1 then
        { found := true, attempts := attempt1, sleeps := sleeps }
      else if attempt1 % 5 = 0 && advanced attempt1 then
        { found := true, attempts := attempt1, sleeps := sleeps }
      else
        skip_search_go quick advanced timeout_tenths fuel (elapsed + 3) attempt1 (sleeps + 1)
    else
      { found := false, attempts := attempt, sleeps := sleeps }

/-- `SkipButtonFinder.find_skip_button_with_timeout` with `timeout`
given in seconds. -/
def find_skip_button_with_timeout (quick advanced : Nat → Bool)
    (timeout : Nat := 10) : SkipSearchTrace :=
  skip_search_go quick advanced (timeout * 10) (timeout * 10) 0 0 0

/-! ## Sequence executor, from `TutorialExecutor.execute_tutorial`

The per-step dispatch (`_execute_step`) is passed as a function from a
step to its success flag and device-action trace; `execute_tutorial`
walks `get_steps_from_range(start_step, 97)` and stops at the first
failing step. -/

/-- The fold of `execute_tutorial`'s step loop: accumulate traces until
a step fails. -/
def execute_steps_loop (exec_step : TutorialStep → Bool × List DeviceAction) :
    List TutorialStep → Bool × List DeviceAction
  | [] => (true, [])
  | s :: rest =>
    let (ok, acts) := exec_step s
    if ok then
      let (r, acts2) := execute_steps_loop exec_step rest
      (r, acts ++ acts2)
    else
      (false, acts)

/-- `TutorialExecutor.execute_tutorial`: run the catalog steps numbered
`start_step..97` in order; returns `true` when every executed step
succeeded (vacuously when the range selects no steps). -/
def execute_tutorial (exec_step : TutorialStep → Bool × List DeviceAction)
    (server_id : Nat) (start_step : Nat := 1) : Bool × List DeviceAction :=
  let _ := server_id   -- forwarded to the select-server step by dispatch
  execute_steps_loop exec_step (get_steps_from_range define_all_steps start_step 97)

/-! ## Run orchestrator, from `OptimizedGameBot.run_bot`

Server ids are carried as `Int` (Python integers): the inner loop runs
`while current_server >= end_server` and decrements, so it can cross
zero.  The outcome oracle maps `(cycle, server, start_step)` to the
result of `perform_tutorial` — an exception inside the loop body is
also a `false` outcome, since both paths advance to the next server. -/

/-- The inner `while current_server >= end_server` loop of `run_bot` for
one cycle: returns the number of successful runs and the list of
processed servers in order.  The structural `fuel` only bounds the
recursion; it is initialised to `(start_server + 1 - end_server).toNat`,
the exact length of the descending range, so the fuel-exhausted base
case coincides with the loop's normal exit. -/
def server_loop (outcome : Nat → Int → Nat → Bool) (cycle : Nat)
    (start_server : Int) (first_server_start_step : Nat) (end_server : Int) :
    Nat → Int → Nat × List Int
  | 0, _ => (0, [])
  | fuel + 1, current =>
    if current < end_server then
      (0, [])
    else
      let current_step :=
        if cycle = 1 ∧ current = start_server then first_server_start_step else 1
      let ok := outcome cycle current current_step
      let rest := server_loop outcome cycle start_server first_server_start_step
          end_server fuel (current - 1)
      (rest.1 + (if ok then 1 else 0), current :: rest.2)

/-- `OptimizedGameBot.run_bot`: validate `start_server >= end_server`,
then process every server of the descending range once per cycle,
counting successes; a failed run is logged and the loop moves to the
next server. -/
def run_bot (outcome : Nat → Int → Nat → Bool) (cycles : Nat := 1)
    (start_server : Int := 619) (end_server : Int := 1)
    (first_server_start_step : Nat := 1) : Nat × List Int :=
  if start_server < end_server then
    (0, [])
  else
    (List.range cycles).foldl
      (fun acc c =>
        let cycle := c + 1
        let r := server_loop outcome cycle start_server first_server_start_step
            end_server (start_server + 1 - end_server).toNat start_server
        (acc.1 + r.1, acc.2 ++ r.2))
      (0, [])

/-! ## Target locator, from `OptimizedServerSelector` and
`TutorialExecutor._scroll_and_find_server`

The OCR capture is modelled as an environment `ocr : Nat → List ServerEntry`
giving the validated recognition result of the `k`-th capture.  The
selector state carries the capture counter and the server cache
(`cached_servers`); within the modelled window the cache is always
fresh (the source's 1 s `cache_timeout` never expires between the last
refresh of the loop and the final lookup, which are ~0.5 s apart). -/

/-- One recognised server row: id and its click coordinates. -/
structure ServerEntry where
  id : Nat
  x : Nat
  y : Nat
deriving DecidableEq, Repr

/-- The mutable selector state used by `_scroll_and_find_server`. -/
structure SelectorState where
  k : Nat
  cached_servers : List ServerEntry
deriving DecidableEq, Repr

/-- Keep the first entry for each id (`server_id not in servers_dict` in
`_extract_servers_from_ocr_data`). -/
def dedup_by_id : List ServerEntry → List ServerEntry
  | [] => []
  | e :: rest =>
    e :: (dedup_by_id rest).filter (fun e2 => e2.id ≠ e.id)

/-- `dict(sorted(validated_servers.items(), reverse=True))`: sort the
recognised servers by id in descending order. -/
def sort_desc (l : List ServerEntry) : List ServerEntry :=
  l.insertionSort (fun a b => b.id ≤ a.id)

/-- `OptimizedServerSelector.get_servers_with_coordinates`: return the
cached servers unless a refresh is forced or the cache is empty, else
consume the next OCR capture, post-process it and store it in the
cache. -/
def get_servers_with_coordinates (ocr : Nat → List ServerEntry)
    (force_refresh : Bool) (st : SelectorState) :
    List ServerEntry × SelectorState :=
  if force_refresh = false ∧ st.cached_servers ≠ [] then
    (st.cached_servers, st)
  else
    let r := sort_desc (dedup_by_id (ocr st.k))
    (r, { k := st.k + 1, cached_servers := r })

/-- `OptimizedServerSelector.find_server_coordinates` with the default
single attempt: force-refresh and look the id up. -/
def find_server_coordinates (ocr : Nat → List ServerEntry)
    (server_id : Nat) (st : SelectorState) :
    Option ServerEntry × SelectorState :=
  let r := get_servers_with_coordinates ocr true st
  (r.1.find? (fun e => e.id = server_id), r.2)

/-- Python `min` over a nonempty list of naturals. -/
def list_min : List Nat → Nat
  | [] => 0
  | x :: xs => xs.foldl Nat.min x

/-- Python `max` over a nonempty list of naturals. -/
def list_max : List Nat → Nat
  | [] => 0
  | x :: xs => xs.foldl Nat.max x

/-- Python `min(l, key=f)`: the first element of `l` attaining the
minimal key (`min` keeps the incumbent on ties). -/
def py_min_by (f : Nat → Nat) : List Nat → Option Nat
  | [] => none
  | x :: xs => some (xs.foldl (fun b a => if f a < f b then a else b) x)

/-- Outcome tag of `OptimizedServerSelector.scroll_to_server_range`. -/
inductive ScrollTag where
  | found
  | small
  | regular
deriving DecidableEq, Repr

/-- `OptimizedServerSelector.scroll_to_server_range`: report `found`
without scrolling when the target lies inside the visible range,
otherwise swipe (a fine swipe when the distance to the visible range is
at most 8, else a coarse one) and clear the server cache. -/
def scroll_to_server_range (target_server : Nat) (current_servers : List Nat)
    (st : SelectorState) : ScrollTag × SelectorState :=
  match current_servers with
  | [] => (ScrollTag.regular, { st with cached_servers := [] })
  | _ =>
    let min_visible := list_min current_servers
    let max_visible := list_max current_servers
    if min_visible ≤ target_server ∧ target_server ≤ max_visible then
      (ScrollTag.found, st)
    else
      let distance_to_min := Nat.dist target_server min_visible
      let distance_to_max := Nat.dist target_server max_visible
      let min_distance := Nat.min distance_to_min distance_to_max
      if min_distance ≤ 3 then
        (ScrollTag.small, { st with cached_servers := [] })
      else if min_distance ≤ 8 then
        (ScrollTag.small, { st with cached_servers := [] })
      else
        (ScrollTag.regular, { st with cached_servers := [] })

/-- The observable outcome of `_scroll_and_find_server`: the returned
flag, the number of swipes issued, the server that was clicked (if
any), and — when the scroll loop was exhausted and the closest-server
fallback ran — the visible-id list and server cache it started from. -/
structure LocateOutcome where
  result : Bool
  scrolls : Nat
  clicked : Option Nat
  fallback_from : Option (List Nat × List ServerEntry)
deriving DecidableEq, Repr

/-- The closest-server fallback at the end of `_scroll_and_find_server`:
pick the visible id closest to the target; accept it only when the
difference is at most 3 and the (cached) final lookup still lists it. -/
def closest_server_fallback (ocr : Nat → List ServerEntry) (server_id : Nat)
    (current_servers_list : List Nat) (st : SelectorState) (scrolls : Nat) :
    LocateOutcome :=
  let fb := some (current_servers_list, st.cached_servers)
  match py_min_by (fun s => Nat.dist s server_id) current_servers_list with
  | none =>
    { result := false, scrolls := scrolls, clicked := none, fallback_from := fb }
  | some closest =>
    if Nat.dist closest server_id ≤ 3 then
      let final_servers := (get_servers_with_coordinates ocr false st).1
      match final_servers.find? (fun e => e.id = closest) with
      | some _ =>
        { result := true, scrolls := scrolls, clicked := some closest, fallback_from := fb }
      | none =>
        { result := false, scrolls := scrolls, clicked := none, fallback_from := fb }
    else
      { result := false, scrolls := scrolls, clicked := none, fallback_from := fb }

/-- The `for attempt in range(max_attempts)` scroll loop of
`_scroll_and_find_server` (`max_attempts = 10`), falling back to the
closest visible server once the attempts are exhausted. -/
def scroll_find_loop (ocr : Nat → List ServerEntry) (server_id : Nat) :
    Nat → List Nat → SelectorState → Nat → LocateOutcome
  | 0, current_servers_list, st, scrolls =>
    closest_server_fallback ocr server_id current_servers_list st scrolls
  | fuel + 1, current_servers_list, st, scrolls =>
    let tag := (scroll_to_server_range server_id current_servers_list st).1
    let st1 := (scroll_to_server_range server_id current_servers_list st).2
    let scrolls1 := scrolls + (if tag = ScrollTag.found then 0 else 1)
    let probe :=
      if tag = ScrollTag.found then find_server_coordinates ocr server_id st1
      else (none, st1)
    match probe.1 with
    | some _ =>
      { result := true, scrolls := scrolls1, clicked := some server_id
      , fallback_from := none }
    | none =>
      let st2 := probe.2
      let new_servers := (get_servers_with_coordinates ocr true st2).1
      let st3 := (get_servers_with_coordinates ocr true st2).2
      if new_servers ≠ [] then
        let current2 := new_servers.map (·.id)
        if new_servers.any (fun e => e.id = server_id) then
          { result := true, scrolls := scrolls1, clicked := some server_id
          , fallback_from := none }
        else
          scroll_find_loop ocr server_id fuel current2 st3 scrolls1
      else
        scroll_find_loop ocr server_id fuel current_servers_list st3 scrolls1

/-- `TutorialExecutor._scroll_and_find_server`: refresh the visible
servers, fail immediately if none are recognised, try a direct lookup,
then run the bounded scroll loop with its closest-server fallback. -/
def scroll_and_find_server (ocr : Nat → List ServerEntry) (server_id : Nat) :
    LocateOutcome :=
  let st0 : SelectorState := { k := 0, cached_servers := [] }
  let current_servers := (get_servers_with_coordinates ocr true st0).1
  let st1 := (get_servers_with_coordinates ocr true st0).2
  if current_servers = [] then
    { result := false, scrolls := 0, clicked := none, fallback_from := none }
  else
    let current_servers_list := current_servers.map (·.id)
    match (find_server_coordinates ocr server_id st1).1 with
    | some _ =>
      { result := true, scrolls := 0, clicked := some server_id, fallback_from := none }
    | none =>
      scroll_find_loop ocr server_id 10 current_servers_list
        (find_server_coordinates ocr server_id st1).2 0

/-- A catalog with every step number duplicated, exercising the
validation failure path of `tutorial_executor_init`. -/
def duplicated_catalog : List TutorialStep := define_steps_1_30 ++ define_steps_1_30

/-! ## Helper lemmas -/

/-- A list of naturals has the length of its deduplication exactly when
it has no duplicates (`len(xs) == len(set(xs))` in the source). -/
lemma length_eq_dedup_length_iff_nodup (l : List Nat) :
    l.length = l.dedup.length ↔ l.Nodup := by
  constructor
  · intro h
    have hs : List.Sublist l.dedup l := List.dedup_sublist l
    have he : l.dedup = l := hs.eq_of_length h.symm
    rw [← he]
    exact List.nodup_dedup l
  · intro h
    rw [List.dedup_eq_self.mpr h]

/-- `validate_steps` fails exactly on catalogs whose step numbers
contain a duplicate. -/
lemma validate_steps_false_iff (steps : List TutorialStep) :
    validate_steps steps = false ↔ ¬ (steps.map (·.step_number)).Nodup := by
  by_cases hd : (steps.map (·.step_number)).Nodup
  · have hlen : (steps.map (·.step_number)).length =
        (steps.map (·.step_number)).dedup.length :=
      (length_eq_dedup_length_iff_nodup _).mpr hd
    simp [validate_steps, hlen, hd]
  · have hlen : (steps.map (·.step_number)).length ≠
        (steps.map (·.step_number)).dedup.length :=
      fun hl => hd ((length_eq_dedup_length_iff_nodup _).mp hl)
    rw [List.length_map] at hlen
    simp [validate_steps, hlen, hd]

/-- Python `min(l, key=f)` returns an element of the list. -/
lemma foldl_min_mem (f : Nat → Nat) :
    ∀ (xs : List Nat) (x : Nat),
      xs.foldl (fun b a => if f a < f b then a else b) x ∈ x :: xs := by
  intro xs
  induction xs with
  | nil => intro x; simp
  | cons a as ih =>
    intro x
    simp only [List.foldl_cons]
    have h := ih (if f a < f x then a else x)
    rcases List.mem_cons.mp h with h1 | h1
    · rw [h1]
      by_cases hx : f a < f x
      · simp [hx]
      · simp [hx]
    · simp [h1]

/-- The closest visible id chosen by the fallback is itself visible. -/
lemma py_min_by_mem (f : Nat → Nat) (l : List Nat) (c : Nat)
    (h : py_min_by f l = some c) : c ∈ l := by
  cases l with
  | nil => simp [py_min_by] at h
  | cons x xs =>
    simp only [py_min_by, Option.some.injEq] at h
    have := foldl_min_mem f xs x
    rw [h] at this
    exact this

/-- The closest-server fallback issues no further swipes. -/
lemma closest_server_fallback_scrolls (ocr : Nat → List ServerEntry)
    (server_id : Nat) (cur : List Nat) (st : SelectorState) (scr : Nat) :
    (closest_server_fallback ocr server_id cur st scr).scrolls = scr := by
  unfold closest_server_fallback
  dsimp only
  split
  · rfl
  · split
    · split <;> rfl
    · rfl

/-- The closest-server fallback records the visible-id list and the
cache it started from. -/
lemma closest_server_fallback_fb (ocr : Nat → List ServerEntry)
    (server_id : Nat) (cur : List Nat) (st : SelectorState) (scr : Nat) :
    (closest_server_fallback ocr server_id cur st scr).fallback_from =
      some (cur, st.cached_servers) := by
  unfold closest_server_fallback
  dsimp only
  split
  · rfl
  · split
    · split <;> rfl
    · rfl

/-- Characterisation of the closest-server fallback: a success always
selects the closest visible id at distance at most 3, and — when the
cache is coherent with the visible-id list, i.e. the final (cached)
lookup sees the ids the loop last saw — it succeeds exactly when that
minimal distance is at most 3. -/
lemma closest_server_fallback_result_char (ocr : Nat → List ServerEntry)
    (server_id : Nat) (cur : List Nat) (st : SelectorState) (scr : Nat) :
    ((closest_server_fallback ocr server_id cur st scr).result = true →
      ∃ c, py_min_by (fun s => Nat.dist s server_id) cur = some c ∧
        Nat.dist c server_id ≤ 3 ∧
        (closest_server_fallback ocr server_id cur st scr).clicked = some c) ∧
    (st.cached_servers.map ServerEntry.id = cur →
      ((closest_server_fallback ocr server_id cur st scr).result = true ↔
        ∃ c, py_min_by (fun s => Nat.dist s server_id) cur = some c ∧
          Nat.dist c server_id ≤ 3)) := by
  unfold closest_server_fallback
  dsimp only
  split
  · rename_i hm
    constructor
    · intro h; simp at h
    · intro _
      simp only [Bool.false_eq_true, false_iff]
      rintro ⟨c2, hc2, _⟩
      rw [hm] at hc2
      cases hc2
  · rename_i c hm
    split
    · rename_i hdist
      split
      · rename_i e hf
        constructor
        · intro _
          exact ⟨c, hm, hdist, rfl⟩
        · intro _
          simp only [true_iff]
          exact ⟨c, hm, hdist⟩
      · rename_i hf
        constructor
        · intro h; simp at h
        · intro hco
          simp only [Bool.false_eq_true, false_iff]
          rintro ⟨c2, hc2, hd2⟩
          rw [hm] at hc2
          injection hc2 with hc2
          subst hc2
          have hmem : c ∈ cur := py_min_by_mem _ _ _ hm
          rw [← hco] at hmem
          have hcache : st.cached_servers ≠ [] := by
            intro hnil; rw [hnil] at hmem; simp at hmem
          have hget : (get_servers_with_coordinates ocr false st).1 =
              st.cached_servers := by
            unfold get_servers_with_coordinates
            rw [if_pos ⟨rfl, hcache⟩]
          rw [hget] at hf
          rcases List.mem_map.mp hmem with ⟨e, he, heid⟩
          have hne := List.find?_eq_none.mp hf e he
          simp [heid] at hne
    · rename_i hdist
      constructor
      · intro h; simp at h
      · intro _
        simp only [Bool.false_eq_true, false_iff]
        rintro ⟨c2, hc2, hd2⟩
        rw [hm] at hc2
        injection hc2 with hc2
        subst hc2
        exact absurd hd2 hdist

/-- Each iteration of the scroll loop issues at most one swipe, so the
loop adds at most `fuel` swipes to the running count. -/
lemma scroll_find_loop_scrolls_le (ocr : Nat → List ServerEntry) (server_id : Nat) :
    ∀ (fuel : Nat) (cur : List Nat) (st : SelectorState) (scr : Nat),
      (scroll_find_loop ocr server_id fuel cur st scr).scrolls ≤ scr + fuel := by
  intro fuel
  induction fuel with
  | zero =>
    intro cur st scr
    simp [scroll_find_loop, closest_server_fallback_scrolls]
  | succ n ih =>
    intro cur st scr
    simp only [scroll_find_loop]
    repeat' split
    all_goals first
      | exact le_trans (ih _ _ _) (by omega)
      | (dsimp only; omega)

/-- The scroll loop either returns before the fallback (then
`fallback_from` is empty) or returns exactly the closest-server
fallback run from some state. -/
lemma scroll_find_loop_shape (ocr : Nat → List ServerEntry) (server_id : Nat) :
    ∀ (fuel : Nat) (cur : List Nat) (st : SelectorState) (scr : Nat),
      (scroll_find_loop ocr server_id fuel cur st scr).fallback_from = none ∨
      ∃ cur2 st2 scr2,
        scroll_find_loop ocr server_id fuel cur st scr =
          closest_server_fallback ocr server_id cur2 st2 scr2 := by
  intro fuel
  induction fuel with
  | zero =>
    intro cur st scr
    exact Or.inr ⟨cur, st, scr, rfl⟩
  | succ n ih =>
    intro cur st scr
    simp only [scroll_find_loop]
    repeat' split
    all_goals first
      | exact Or.inl rfl
      | exact ih _ _ _

/-- `_scroll_and_find_server` either returns before the fallback or
returns exactly the closest-server fallback run from some state. -/
lemma scroll_and_find_server_shape (ocr : Nat → List ServerEntry) (server_id : Nat) :
    (scroll_and_find_server ocr server_id).fallback_from = none ∨
    ∃ cur2 st2 scr2,
      scroll_and_find_server ocr server_id =
        closest_server_fallback ocr server_id cur2 st2 scr2 := by
  unfold scroll_and_find_server
  dsimp only
  repeat' split
  all_goals first
    | exact Or.inl rfl
    | exact scroll_find_loop_shape ocr server_id 10 _ _ 0

/-- The locator never issues more than 10 swipes. -/
lemma scroll_and_find_server_scrolls_le (ocr : Nat → List ServerEntry) (server_id : Nat) :
    (scroll_and_find_server ocr server_id).scrolls ≤ 10 := by
  unfold scroll_and_find_server
  dsimp only
  repeat' split
  all_goals first
    | simp
    | simpa using scroll_find_loop_scrolls_le ocr server_id 10 _ _ 0

/-- A perception environment on which the locator exhausts its scroll
attempts against the target 500 and accepts the visible server 497. -/
def c5_witness_env : Nat → List ServerEntry := fun _ => [{ id := 497, x := 10, y := 20 }]

/-! ## Claim theorems -/

/-- C1 (counterexample): with a perception environment in which the
template never appears within the timeout, the
`click_with_image_check_and_wait` action of step 7 performs the
coordinate tap at (1169, 42) yet returns `false`, so the step does not
report success as claimed. -/
theorem c1_counterexample_timeout_step_fails :
    (action_click_with_image_check_and_wait (fun _ _ => false)
        "step_7_skip_hell_henry" 1169 42 40 0.25).result = false ∧
    (action_click_with_image_check_and_wait (fun _ _ => false)
        "step_7_skip_hell_henry" 1169 42 40 0.25).taps = [DeviceAction.tap 1169 42] :=
  ⟨rfl, rfl⟩

/-- C1 (amended): a tap-after-visual-check action always performs the
coordinate tap, whether or not the template appeared, but it returns
the wait outcome: `true` exactly when the template appeared within the
timeout, and `false` — a step failure that aborts the run — when it
did not. -/
theorem c1_tap_after_visual_check_taps_and_returns_wait_outcome :
    ∀ (wait_for_image : String → Nat → Bool) (image_key : String)
      (x y image_timeout : Nat) (wait_after : ℚ),
      (action_click_with_image_check_and_wait wait_for_image image_key x y
          image_timeout wait_after).taps = [DeviceAction.tap x y] ∧
      (action_click_with_image_check_and_wait wait_for_image image_key x y
          image_timeout wait_after).result = wait_for_image image_key image_timeout := by
  intro wfi key x y t w
  unfold action_click_with_image_check_and_wait click_with_image_check
  cases wfi key t <;> simp

/-- C2 (counterexample): target 550 is matched by two bands of the
configured table (S3 = 564..541 and S4 = 570..505), refuting the
claim that at most one band matches every target in 1..619. -/
theorem c2_counterexample_target_550_in_two_bands :
    ¬ ((bands_matching 550).length ≤ 1) := by decide

set_option maxRecDepth 4096 in
/-- C2 (amended): every band of the configured table satisfies
`max_server <= min_server` (low ≥ high), but the table is not
overlap-free: each target in 1..619 is matched by at most two bands,
and exactly two bands match precisely the targets 541..564, where band
S3 (564..541) lies inside band S4 (570..505). -/
theorem c2_bands_low_ge_high_and_single_overlap :
    (∀ b ∈ SEASONS, b.2.2 ≤ b.2.1) ∧
    ∀ t : Nat, t < 620 →
      (bands_matching t).length ≤ 2 ∧
      ((bands_matching t).length = 2 ↔ 541 ≤ t ∧ t ≤ 564) := by
  constructor
  · decide
  · decide

/-- C2 (witness): the amended theorem applied at the concrete target
550, which lies in the S3/S4 overlap. -/
theorem c2_witness_overlap_at_550 :
    (bands_matching 550).length = 2 ∧ (541 ≤ 550 ∧ 550 ≤ 564) :=
  ⟨((c2_bands_low_ge_high_and_single_overlap.2 550 (by decide)).2).mpr (by decide),
    by decide⟩

set_option maxRecDepth 8192 in
/-- C3 (counterexample): a catalog whose step numbers are all
duplicated fails validation, yet executor construction still completes
(the source only logs a warning), refuting the claim that construction
aborts on an invalid catalog. -/
theorem c3_counterexample_duplicate_catalog_constructs :
    validate_steps duplicated_catalog = false ∧
    (tutorial_executor_init duplicated_catalog).isOk = true :=
  ⟨by decide, rfl⟩

/-- C3 (amended): executor construction never aborts; an invalid
catalog (duplicate step numbers) is detected at construction and
recorded as a warning, after which the executor is built and runs can
begin. -/
theorem c3_executor_init_never_aborts :
    ∀ steps : List TutorialStep,
      (tutorial_executor_init steps).isOk = true ∧
      ∃ e, tutorial_executor_init steps = Except.ok e ∧
        (e.validation_warned = true ↔ ¬ (steps.map (·.step_number)).Nodup) := by
  intro steps
  refine ⟨rfl, ⟨_, rfl, ?_⟩⟩
  show (!validate_steps steps) = true ↔ _
  simp only [Bool.not_eq_true']
  exact validate_steps_false_iff steps

/-- C4: for every outcome oracle, `run_bot` with `cycles = 2`,
`start_server = 5`, `end_server = 3` processes exactly the targets
[5, 4, 3, 5, 4, 3] — so a failing target never prevents the later
targets or cycles from being attempted — and its success count is the
number of runs the oracle reports as successful (the custom start step
is used only for the first target of the first cycle). -/
theorem c4_run_bot_processes_5_4_3_twice_and_counts_successes :
    ∀ (outcome : Nat → Int → Nat → Bool) (first_server_start_step : Nat),
      (run_bot outcome 2 5 3 first_server_start_step).2 = [5, 4, 3, 5, 4, 3] ∧
      (run_bot outcome 2 5 3 first_server_start_step).1 =
        (if outcome 1 5 first_server_start_step then 1 else 0) +
        (if outcome 1 4 1 then 1 else 0) + (if outcome 1 3 1 then 1 else 0) +
        ((if outcome 2 5 1 then 1 else 0) +
         (if outcome 2 4 1 then 1 else 0) + (if outcome 2 3 1 then 1 else 0)) := by
  intro o f
  refine ⟨rfl, ?_⟩
  show 0 + (0 + (if o 1 3 1 then 1 else 0) + (if o 1 4 1 then 1 else 0) +
      (if o 1 5 f then 1 else 0)) +
      (0 + (if o 2 3 1 then 1 else 0) + (if o 2 4 1 then 1 else 0) +
      (if o 2 5 1 then 1 else 0)) = _
  omega

/-- C5: for every perception environment and target id, the locator
issues at most 10 swipes; when the scroll loop is exhausted without
locating the exact target (so the closest-server fallback runs, with
`fallback_from` recording the visible ids `cur` and the cache `ca` it
started from), a success always accepts the closest visible id at
distance at most 3, and — whenever the cached final lookup is
coherent with the last visible ids (`ca.map id = cur`, the in-window
cache behaviour of the source) — the step succeeds exactly when that
closest id is within distance 3, and otherwise fails. -/
theorem c5_scroll_cap_and_closest_tolerance :
    ∀ (ocr : Nat → List ServerEntry) (server_id : Nat),
      (scroll_and_find_server ocr server_id).scrolls ≤ 10 ∧
      ∀ cur ca,
        (scroll_and_find_server ocr server_id).fallback_from = some (cur, ca) →
        ((scroll_and_find_server ocr server_id).result = true →
          ∃ c, py_min_by (fun s => Nat.dist s server_id) cur = some c ∧
            Nat.dist c server_id ≤ 3 ∧
            (scroll_and_find_server ocr server_id).clicked = some c) ∧
        (ca.map ServerEntry.id = cur →
          ((scroll_and_find_server ocr server_id).result = true ↔
            ∃ c, py_min_by (fun s => Nat.dist s server_id) cur = some c ∧
              Nat.dist c server_id ≤ 3)) := by
  intro ocr server_id
  refine ⟨scroll_and_find_server_scrolls_le ocr server_id, ?_⟩
  intro cur ca h
  rcases scroll_and_find_server_shape ocr server_id with hn | ⟨cur2, st2, scr2, heq⟩
  · rw [hn] at h; cases h
  · rw [heq] at h
    rw [closest_server_fallback_fb] at h
    injection h with h
    injection h with h1 h2
    subst h1
    subst h2
    rw [heq]
    exact closest_server_fallback_result_char ocr server_id cur2 st2 scr2

/-- C5 (witness): on the environment that always shows only server 497,
the locator asked for 500 exhausts its scrolls, reaches the fallback
with visible ids [497] and a coherent cache, and accepts 497 (distance
3), staying within the 10-swipe cap. -/
theorem c5_witness_accepts_497_for_500 :
    (scroll_and_find_server c5_witness_env 500).fallback_from =
        some ([497], [{ id := 497, x := 10, y := 20 }]) ∧
      (scroll_and_find_server c5_witness_env 500).result = true ∧
      (scroll_and_find_server c5_witness_env 500).scrolls ≤ 10 := by
  have h := c5_scroll_cap_and_closest_tolerance c5_witness_env 500
  have hfb : (scroll_and_find_server c5_witness_env 500).fallback_from =
      some ([497], [{ id := 497, x := 10, y := 20 }]) := by decide
  refine ⟨hfb, ?_, h.1⟩
  have h2 := (h.2 [497] [{ id := 497, x := 10, y := 20 }] hfb).2 (by decide)
  exact h2.mpr ⟨497, by decide, by decide⟩

/-- C6: band resolution scans the configured table in declaration
order: target 600 resolves to S1 (619..598) and target 597 resolves to
S2 (597..571), not S1. -/
theorem c6_boundary_600_to_S1_597_to_S2 :
    determine_season_for_server 600 = some "S1" ∧
    determine_season_for_server 597 = some "S2" := by decide

/-- C7: catalog validation returns `false` exactly when some step
number occurs more than once; the actual catalog — whose numbering
1..90 leaves the expected numbers 91..97 missing, producing only the
gap warning — still validates to `true`. -/
theorem c7_validate_fails_iff_duplicates_warns_on_gaps :
    (∀ steps : List TutorialStep,
        validate_steps steps = false ↔ ¬ (steps.map (·.step_number)).Nodup) ∧
      validate_steps define_all_steps = true ∧
      missing_steps define_all_steps = [91, 92, 93, 94, 95, 96, 97] :=
  ⟨validate_steps_false_iff, by decide, by decide⟩

/-- C8: for all bounds, `get_steps_from_range` returns exactly the
catalog steps whose number lies in [a, b] — and no others — with their
numbers in strictly ascending order; as a round trip, the range 1..90
returns the entire catalog. -/
theorem c8_get_range_membership_sorted_roundtrip :
    (∀ a b : Nat,
      (∀ s : TutorialStep,
          s ∈ get_steps_from_range define_all_steps a b ↔
            s ∈ define_all_steps ∧ a ≤ s.step_number ∧ s.step_number ≤ b) ∧
      ((get_steps_from_range define_all_steps a b).map (·.step_number)).Pairwise (· < ·)) ∧
    get_steps_from_range define_all_steps 1 90 = define_all_steps := by
  have hsorted : (define_all_steps.map (·.step_number)).Pairwise (· < ·) := by decide
  refine ⟨fun a b => ⟨?_, ?_⟩, ?_⟩
  · intro s
    simp [get_steps_from_range, List.mem_filter, and_assoc]
  · have hsub : List.Sublist
        ((get_steps_from_range define_all_steps a b).map (·.step_number))
        (define_all_steps.map (·.step_number)) :=
      (List.filter_sublist define_all_steps).map (·.step_number)
    exact hsorted.sublist hsub
  · apply List.filter_eq_self.mpr
    decide

/-- C9: the bounded skip-button search called with `timeout = 0`
returns failure immediately: no polling attempt is made and no 0.3 s
sleep is taken. -/
theorem c9_skip_timeout_zero_returns_immediately :
    ∀ quick advanced : Nat → Bool,
      find_skip_button_with_timeout quick advanced 0 =
        { found := false, attempts := 0, sleeps := 0 } :=
  fun _ _ => rfl

/-- C10: the catalog defines exactly the step numbers 1..90, and for
every start step above 90 the range query (capped at 97) selects no
steps, so `execute_tutorial` performs no device action and reports
vacuous success, for every step implementation and server id. -/
theorem c10_start_step_beyond_catalog_vacuous_success :
    (define_all_steps.map (·.step_number) = (List.range 90).map (· + 1)) ∧
    ∀ (exec_step : TutorialStep → Bool × List DeviceAction) (server_id start_step : Nat),
      90 < start_step →
      get_steps_from_range define_all_steps start_step 97 = [] ∧
      execute_tutorial exec_step server_id start_step = (true, []) := by
  refine ⟨by decide, ?_⟩
  intro exec_step server_id start_step h
  have hle : ∀ s ∈ define_all_steps, s.step_number ≤ 90 := by decide
  have hnil : get_steps_from_range define_all_steps start_step 97 = [] := by
    apply List.filter_eq_nil_iff.mpr
    intro s hs
    have := hle s hs
    simp only [Bool.and_eq_true, decide_eq_true_eq, not_and]
    intro hstart
    omega
  refine ⟨hnil, ?_⟩
  unfold execute_tutorial
  rw [hnil]
  rfl

/-- C10 (witness): starting from step 91 — one past the last defined
step — with a step implementation that would fail and tap, the run
executes nothing and reports success. -/
theorem c10_witness_start_91 :
    90 < 91 ∧
      execute_tutorial (fun _ => (false, [DeviceAction.tap 0 0])) 619 91 = (true, []) :=
  ⟨by decide,
    (c10_start_step_beyond_catalog_vacuous_success.2
      (fun _ => (false, [DeviceAction.tap 0 0])) 619 91 (by decide)).2⟩
